import Mathlib

/-!
Verification development for the DeviceOrientationHelper module
(src/helpers/DeviceOrientationHelper.js).

The module is a process-wide singleton with three concerns:
  * a permission-acquisition flow (request_API / init / destroy),
  * an orientation transformer (update, the event handlers
    onDeviceOrientationChangeEvent / onScreenOrientationChangeEvent),
  * quaternion construction and Euler decomposition delegated to a math
    capability (THREE.js Quaternion / Euler objects).

The JS module state (_isEnabled, _deviceOrientation, _screenOrientation,
_angles, _isThree, _threeInstances) is embedded as an explicit state record
threaded through the operations.  JS values that may be null or undefined
are embedded as the inductive JSVal.  Real-number arithmetic stands in for
JS floating point.
-/

namespace DeviceOrientationHelper

noncomputable section

/-- A JS value slot that may hold undefined, null, or a number. -/
inductive JSVal where
  | undef : JSVal
  | null : JSVal
  | num : ℝ → JSVal

/-- A deviceorientation event: the three angle fields, each possibly null
or undefined (the code only ever reads these three fields). -/
structure DeviceEvent where
  alpha : JSVal
  beta : JSVal
  gamma : JSVal

/-- Field selector for the three angle fields of a DeviceEvent. -/
inductive AngleField where
  | alpha | beta | gamma
  deriving DecidableEq

/-- Reading device[label] for label among alpha/beta/gamma. -/
def DeviceEvent.get (e : DeviceEvent) : AngleField → JSVal
  | .alpha => e.alpha
  | .beta => e.beta
  | .gamma => e.gamma

/-! ## Math capability (external collaborator)

Modelled from the spec: the optional math capability (THREE.js in the
source) must provide quaternion construction from an Euler triple with a
selectable axis order, quaternion multiplication, axis-angle quaternion
construction, and decomposition of a quaternion back into an Euler triple
under a selectable axis order.  The definitions below embed the THREE.js
implementations of exactly the operations the source invokes. -/

/-- Modelled from the spec: the math capability vector type
(THREE.Vector3). -/
structure Vector3 where
  x : ℝ
  y : ℝ
  z : ℝ

/-- Modelled from the spec: the math capability quaternion type
(THREE.Quaternion), components (x, y, z, w). -/
structure Quaternion where
  x : ℝ
  y : ℝ
  z : ℝ
  w : ℝ

/-- Euler axis-composition orders used by the source (THREE.Euler orders;
the source only ever uses YXZ, XYZ is the THREE.Euler constructor
default). -/
inductive EulerOrder where
  | XYZ | YXZ
  deriving DecidableEq

/-- Modelled from the spec: the math capability Euler-angle type
(THREE.Euler): three angles plus an axis order. -/
structure Euler where
  x : ℝ
  y : ℝ
  z : ℝ
  order : EulerOrder

/-- Modelled from the spec: quaternion multiplication
(THREE.Quaternion.multiplyQuaternions; a.multiply(b) computes a * b). -/
def Quaternion.multiply (a b : Quaternion) : Quaternion :=
  ⟨a.x * b.w + a.w * b.x + a.y * b.z - a.z * b.y,
   a.y * b.w + a.w * b.y + a.z * b.x - a.x * b.z,
   a.z * b.w + a.w * b.z + a.x * b.y - a.y * b.x,
   a.w * b.w - a.x * b.x - a.y * b.y - a.z * b.z⟩

/-- Modelled from the spec: axis-angle quaternion construction
(THREE.Quaternion.setFromAxisAngle, axis assumed normalized). -/
def Quaternion.setFromAxisAngle (axis : Vector3) (angle : ℝ) : Quaternion :=
  ⟨axis.x * Real.sin (angle / 2), axis.y * Real.sin (angle / 2),
   axis.z * Real.sin (angle / 2), Real.cos (angle / 2)⟩

/-- Modelled from the spec: quaternion construction from an Euler triple
with a selectable axis order (THREE.Quaternion.setFromEuler). -/
def Quaternion.setFromEuler (e : Euler) : Quaternion :=
  let c1 := Real.cos (e.x / 2)
  let c2 := Real.cos (e.y / 2)
  let c3 := Real.cos (e.z / 2)
  let s1 := Real.sin (e.x / 2)
  let s2 := Real.sin (e.y / 2)
  let s3 := Real.sin (e.z / 2)
  match e.order with
  | .XYZ =>
      ⟨s1 * c2 * c3 + c1 * s2 * s3, c1 * s2 * c3 - s1 * c2 * s3,
       c1 * c2 * s3 + s1 * s2 * c3, c1 * c2 * c3 - s1 * s2 * s3⟩
  | .YXZ =>
      ⟨s1 * c2 * c3 + c1 * s2 * s3, c1 * s2 * c3 - s1 * c2 * s3,
       c1 * c2 * s3 - s1 * s2 * c3, c1 * c2 * c3 + s1 * s2 * s3⟩

/-- Two-argument arctangent with range (-pi, pi], as Math.atan2(y, x)
(the argument of the complex number x + y i). -/
def atan2 (y x : ℝ) : ℝ := Complex.arg ⟨x, y⟩

/-- Clamp a value to an interval (THREE.MathUtils.clamp). -/
def clampValue (v lo hi : ℝ) : ℝ := max lo (min v hi)

/-- Modelled from the spec: decomposition of a quaternion back into an
Euler triple under the YXZ axis order (THREE.Euler.setFromQuaternion with
order YXZ: rotation matrix from the quaternion, then the YXZ branch of
THREE.Euler.setFromRotationMatrix). -/
def Euler.setFromQuaternionYXZ (q : Quaternion) : Euler :=
  let m11 := 1 - 2 * (q.y * q.y + q.z * q.z)
  let m13 := 2 * (q.x * q.z + q.w * q.y)
  let m21 := 2 * (q.x * q.y + q.w * q.z)
  let m22 := 1 - 2 * (q.x * q.x + q.z * q.z)
  let m23 := 2 * (q.y * q.z - q.w * q.x)
  let m31 := 2 * (q.x * q.z - q.w * q.y)
  let m33 := 1 - 2 * (q.x * q.x + q.y * q.y)
  let ex := Real.arcsin (- clampValue m23 (-1) 1)
  if |m23| < 0.9999999 then
    ⟨ex, atan2 m13 m33, atan2 m21 m22, .YXZ⟩
  else
    ⟨ex, atan2 (- m31) m11, 0, .YXZ⟩

/-! ## Module state -/

/-- The _threeInstances record built by init_threeInstances and mutated by
set_quaternion and the compute_rotation functions. -/
structure ThreeInstances where
  quat : Quaternion
  q0 : Quaternion
  q1 : Quaternion
  euler : Euler
  zee : Vector3

/-- The values installed by init_threeInstances: quat and q0 are default
quaternions, q1 is the fixed (-sqrt 0.5, 0, 0, sqrt 0.5) correction, euler
is a default THREE.Euler, zee is (0, 0, 1). -/
def init_threeInstances : ThreeInstances :=
  { quat := ⟨0, 0, 0, 1⟩
    q0 := ⟨0, 0, 0, 1⟩
    q1 := ⟨- Real.sqrt 0.5, 0, 0, Real.sqrt 0.5⟩
    euler := ⟨0, 0, 0, .XYZ⟩
    zee := ⟨0, 0, 1⟩ }

/-- The module-level mutable state: _isEnabled, the listener subscription,
_deviceOrientation, _screenOrientation, the reused _angles buffer,
_isThree, and _threeInstances. -/
structure MState where
  isEnabled : Bool
  listenersAttached : Bool
  deviceOrientation : Option DeviceEvent
  screenOrientation : ℝ
  angles : ℝ × ℝ × ℝ × ℝ
  isThree : Bool
  three : ThreeInstances

/-- The module state at load time: disabled, no sample, zero offset, the
zero-filled _angles buffer, no math capability. -/
def mstate0 : MState :=
  { isEnabled := false
    listenersAttached := false
    deviceOrientation := none
    screenOrientation := 0
    angles := (0, 0, 0, 0)
    isThree := false
    three := init_threeInstances }

/-- The degrees-to-radians factor _d2r. -/
def d2r : ℝ := Real.pi / 180

/-- Conversion of one stored JS angle field as in get_deviceEulerAngle:
an undefined field yields 0; otherwise the field is multiplied by _d2r
(in JS, _d2r * null coerces null to 0). -/
def get_deviceEulerAngle (device : DeviceEvent) (label : AngleField) : ℝ :=
  match device.get label with
  | .undef => 0
  | .null => d2r * 0
  | .num v => d2r * v

/-- add_eventListeners: sets _isEnabled true and subscribes the two
listeners. -/
def add_eventListeners (s : MState) : MState :=
  { s with isEnabled := true, listenersAttached := true }

/-- remove_eventListeners: sets _isEnabled false and unsubscribes the two
listeners. -/
def remove_eventListeners (s : MState) : MState :=
  { s with isEnabled := false, listenersAttached := false }

/-- Whether a DeviceEvent has a null field among alpha/beta/gamma (the
guard of onDeviceOrientationChangeEvent). -/
def hasNullAngleField (e : DeviceEvent) : Bool :=
  match e.alpha, e.beta, e.gamma with
  | .null, _, _ => true
  | _, .null, _ => true
  | _, _, .null => true
  | _, _, _ => false

/-- onDeviceOrientationChangeEvent: discards the event if alpha, beta or
gamma is null (strict null comparison), otherwise stores it wholesale as
_deviceOrientation. -/
def onDeviceOrientationChangeEvent (s : MState) (e : DeviceEvent) : MState :=
  if hasNullAngleField e then s else { s with deviceOrientation := some e }

/-- The JS expression (window.orientation or 0): undefined and null give 0,
a number gives itself (0 is falsy but the alternative is 0 as well). -/
def jsOrZero : JSVal → ℝ
  | .undef => 0
  | .null => 0
  | .num v => v

/-- onScreenOrientationChangeEvent: recomputes _screenOrientation from the
platform report (window.orientation or 0) and multiplies by _d2r. -/
def onScreenOrientationChangeEvent (s : MState) (report : JSVal) : MState :=
  { s with screenOrientation := jsOrZero report * d2r }

/-- set_quaternion: euler.set(beta, alpha, -gamma, YXZ); quaternion is set
from that euler, multiplied by q1, then multiplied by
q0.setFromAxisAngle(zee, -orient) (which mutates q0).  The mutated
_threeInstances record is returned. -/
def set_quaternion (t : ThreeInstances) (alpha beta gamma orient : ℝ) :
    ThreeInstances :=
  let e : Euler := ⟨beta, alpha, - gamma, .YXZ⟩
  let q := Quaternion.setFromEuler e
  let q' := q.multiply t.q1
  let q0' := Quaternion.setFromAxisAngle t.zee (- orient)
  { t with euler := e, quat := q'.multiply q0', q0 := q0' }

/-- The value update() returns when it does not return null: the shared
quaternion, or the reused _angles tuple. -/
inductive UpdateResult where
  | quat : Quaternion → UpdateResult
  | angles : ℝ × ℝ × ℝ × ℝ → UpdateResult

/-- update(): returns null when not enabled or no sample is stored;
otherwise converts the sample fields, and either fills and returns the
shared quaternion (math capability present) or fills and returns the
reused _angles buffer. -/
def update (s : MState) : MState × Option UpdateResult :=
  match s.isEnabled, s.deviceOrientation with
  | false, _ => (s, none)
  | true, none => (s, none)
  | true, some device =>
      let alpha := get_deviceEulerAngle device .alpha
      let beta := get_deviceEulerAngle device .beta
      let gamma := get_deviceEulerAngle device .gamma
      if s.isThree then
        let t := set_quaternion s.three alpha beta gamma s.screenOrientation
        ({ s with three := t }, some (.quat t.quat))
      else
        let a := (alpha, beta, gamma, s.screenOrientation)
        ({ s with angles := a }, some (.angles a))

/-- destroy(): remove_eventListeners. -/
def destroy (s : MState) : MState := remove_eventListeners s

/-- compute_rotationX: throws unless a math capability was provided, else
sets the shared euler from the quaternion under YXZ and returns its x. -/
def compute_rotationX (s : MState) (q : Quaternion) :
    Except String (MState × ℝ) :=
  if s.isThree = false then .error "Please provide THREE"
  else
    let e := Euler.setFromQuaternionYXZ q
    .ok ({ s with three := { s.three with euler := e } }, e.x)

/-- compute_rotationY: throws unless a math capability was provided, else
sets the shared euler from the quaternion under YXZ and returns its y. -/
def compute_rotationY (s : MState) (q : Quaternion) :
    Except String (MState × ℝ) :=
  if s.isThree = false then .error "Please provide THREE"
  else
    let e := Euler.setFromQuaternionYXZ q
    .ok ({ s with three := { s.three with euler := e } }, e.y)

/-- compute_rotationZ: throws unless a math capability was provided, else
sets the shared euler from the quaternion under YXZ and returns its z. -/
def compute_rotationZ (s : MState) (q : Quaternion) :
    Except String (MState × ℝ) :=
  if s.isThree = false then .error "Please provide THREE"
  else
    let e := Euler.setFromQuaternionYXZ q
    .ok ({ s with three := { s.three with euler := e } }, e.z)

/-! ## Permission flow -/

/-- A retry-gesture surface: the global window object or a specific DOM
element (identified abstractly). -/
inductive Surface where
  | window | element (id : ℕ)
  deriving DecidableEq

/-- The configuration merged by init: THREE (modelled by the isThree flag
elsewhere; here only membership in the spec matters for the flow),
DOMTrigger, DOMRetryTrigger, isRejectIfMissing.  DOMTriggerOnClick and the
debug flags only drive diagnostics and are omitted. -/
structure HelperSpec where
  DOMTrigger : Bool
  DOMRetryTrigger : Option Surface
  isRejectIfMissing : Bool

/-- One outcome of invoking DeviceOrientationEvent.requestPermission: the
promise resolves with a response string, or rejects with an error whose
string rendering is recorded. -/
inductive PermResult where
  | resolved : String → PermResult
  | rejected : String → PermResult

/-- The platform permission capability: absent (no requestPermission
function), or present with the outcome of each successive attempt
(indexed by the retriesCount of the requesting call). -/
structure PermEnv where
  requestPermission : Option (ℕ → PermResult)

/-- The error classification in request_API:
error.toString().split(with colon).shift().toUpperCase().  The first
element of the split is the longest prefix free of colons, and
toUpperCase maps Char.toUpper over it. -/
def errorType (e : String) : String :=
  String.mk ((e.data.takeWhile (fun c => c ≠ ':')).map Char.toUpper)

/-- The observable result of one request_API call (gestures on an attached
retry handler are assumed to fire, so the single-shot promise always
settles): the final module state, whether the promise was accepted,
how many times requestPermission was invoked in total, and the surface a
retry handler was attached to, if any. -/
structure FlowRes where
  st : MState
  accepted : Bool
  requests : ℕ
  retryTarget : Option Surface

/-- request_API(retriesCount): absent capability rejects when
isRejectIfMissing, else enables and accepts; a resolved request enables
exactly when the response is granted and accepts either way; a rejected
request with a NOTALLOWEDERROR classification, no DOMTrigger and
retriesCount 0 attaches a one-shot retry handler to
(DOMRetryTrigger or window) and re-requests on the gesture; any other
rejection rejects the promise. -/
def request_API (env : PermEnv) (spec : HelperSpec) (s : MState)
    (retriesCount : ℕ) : FlowRes :=
  match env.requestPermission with
  | none =>
      if spec.isRejectIfMissing then ⟨s, false, 0, none⟩
      else ⟨add_eventListeners s, true, 0, none⟩
  | some results =>
      match results retriesCount with
      | .resolved response =>
          if response = "granted" then ⟨add_eventListeners s, true, 1, none⟩
          else ⟨s, true, 1, none⟩
      | .rejected err =>
          if h : errorType err = "NOTALLOWEDERROR" ∧ spec.DOMTrigger = false ∧
              retriesCount = 0 then
            let target := spec.DOMRetryTrigger.getD .window
            let r := request_API env spec s (retriesCount + 1)
            ⟨r.st, r.accepted, r.requests + 1, some target⟩
          else ⟨s, false, 1, none⟩
termination_by 1 - retriesCount
decreasing_by
  obtain ⟨-, -, h0⟩ := h
  omega

/-- init(spec): records the math capability, builds the THREE instances
when present, runs onScreenOrientationChangeEvent once with the current
platform report, then (after the DOMTrigger gesture when one is
configured) runs request_API(0). -/
def init (env : PermEnv) (spec : HelperSpec) (isThree : Bool)
    (report : JSVal) (s : MState) : FlowRes :=
  let s1 := { s with isThree := isThree,
                     three := if isThree then init_threeInstances else s.three }
  let s2 := onScreenOrientationChangeEvent s1 report
  request_API env spec s2 0

/-! ## Event traces

The reachable states of the module are those produced from mstate0 by a
sequence of external occurrences: sensor events and screen-rotation events
(delivered only while the listeners are subscribed), permission-flow
resolutions that subscribe the listeners, and destroy() calls. -/

/-- An external occurrence driving the module state. -/
inductive Ev where
  | sensor : DeviceEvent → Ev
  | screen : JSVal → Ev
  | subscribe : Ev
  | teardown : Ev

/-- One step of the module state under an external occurrence: listener
callbacks only run while the listeners are attached. -/
def stepEv (s : MState) : Ev → MState
  | .sensor e => if s.listenersAttached then onDeviceOrientationChangeEvent s e else s
  | .screen r => if s.listenersAttached then onScreenOrientationChangeEvent s r else s
  | .subscribe => add_eventListeners s
  | .teardown => destroy s

/-- Running a list of external occurrences from a state. -/
def runEvents (s : MState) : List Ev → MState
  | [] => s
  | e :: rest => runEvents (stepEv s e) rest

/-- Whether one occurrence is a sensor event delivered while the listeners
are attached that passes the null-field guard (such an event is stored). -/
def storesSample (s : MState) : Ev → Bool
  | .sensor ev => s.listenersAttached && !hasNullAngleField ev
  | _ => false

/-- Whether one occurrence is a sensor event delivered while the listeners
are attached all of whose three angle fields are present and non-null (a
fully valid sample in the sense of the data-model invariant). -/
def deliversValidSample (s : MState) : Ev → Bool
  | .sensor ev =>
      s.listenersAttached &&
      (match ev.alpha, ev.beta, ev.gamma with
       | .num _, .num _, .num _ => true
       | _, _, _ => false)
  | _ => false

/-- Whether a trace contains an occurrence that stores a sample. -/
def acceptsSample (s : MState) : List Ev → Bool
  | [] => false
  | e :: rest => storesSample s e || acceptsSample (stepEv s e) rest

/-- Whether a trace contains a delivery of a fully valid sample. -/
def acceptsValidSample (s : MState) : List Ev → Bool
  | [] => false
  | e :: rest => deliversValidSample s e || acceptsValidSample (stepEv s e) rest

/-- Per-field conversion stated as the spec words it: the stored sample
field in degrees multiplied by pi/180, an absent field contributing 0
radians (a null field, coerced to 0 by JS multiplication, also gives 0). -/
def sampleFieldRadians : JSVal → ℝ
  | .num v => v * (Real.pi / 180)
  | .undef => 0
  | .null => 0

/-! ## Helper lemmas -/

theorem get_deviceEulerAngle_eq (device : DeviceEvent) (f : AngleField) :
    get_deviceEulerAngle device f = sampleFieldRadians (device.get f) := by
  unfold get_deviceEulerAngle sampleFieldRadians d2r
  cases device.get f with
  | undef => rfl
  | null => ring
  | num v => ring

theorem update_snd_none_iff (s : MState) :
    (update s).2 = none ↔ (s.isEnabled = false ∨ s.deviceOrientation = none) := by
  cases hE : s.isEnabled with
  | false => simp [update, hE]
  | true =>
      cases hD : s.deviceOrientation with
      | none => simp [update, hE, hD]
      | some d =>
          cases h3 : s.isThree with
          | false => simp [update, hE, hD, h3]
          | true => simp [update, hE, hD, h3]

theorem stepEv_dev_none_iff (s : MState) (e : Ev) :
    (stepEv s e).deviceOrientation = none ↔
      (s.deviceOrientation = none ∧ storesSample s e = false) := by
  cases e with
  | sensor ev =>
      cases hA : s.listenersAttached with
      | false => simp [stepEv, storesSample, hA]
      | true =>
          cases hN : hasNullAngleField ev with
          | true => simp [stepEv, storesSample, hA, hN, onDeviceOrientationChangeEvent]
          | false => simp [stepEv, storesSample, hA, hN, onDeviceOrientationChangeEvent]
  | screen r =>
      cases hA : s.listenersAttached with
      | false => simp [stepEv, storesSample, hA]
      | true => simp [stepEv, storesSample, hA, onScreenOrientationChangeEvent]
  | subscribe => simp [stepEv, storesSample, add_eventListeners]
  | teardown => simp [stepEv, storesSample, destroy, remove_eventListeners]

theorem runEvents_dev_none_iff (evs : List Ev) (s : MState) :
    (runEvents s evs).deviceOrientation = none ↔
      (s.deviceOrientation = none ∧ acceptsSample s evs = false) := by
  induction evs generalizing s with
  | nil => simp [runEvents, acceptsSample]
  | cons e rest ih =>
      rw [runEvents, acceptsSample, ih (stepEv s e)]
      rw [Bool.or_eq_false_iff]
      constructor
      · rintro ⟨hdev, hrest⟩
        obtain ⟨hd, hc⟩ := (stepEv_dev_none_iff s e).mp hdev
        exact ⟨hd, hc, hrest⟩
      · rintro ⟨hd, hc, hrest⟩
        exact ⟨(stepEv_dev_none_iff s e).mpr ⟨hd, hc⟩, hrest⟩

/-! ## Claims about the orientation transformer state -/

/-- Concrete state for the C3 counterexample: enabled, with a stored
fully-valid sample. -/
def sC3 : MState :=
  { mstate0 with isEnabled := true, listenersAttached := true,
                 deviceOrientation := some ⟨.num 1, .num 2, .num 3⟩ }

/-- Concrete event for the C3 counterexample: alpha is undefined (absent),
beta and gamma are numbers. -/
def eC3 : DeviceEvent := ⟨.undef, .num 10, .num 20⟩

/-- C3 (counterexample): an event whose alpha field is undefined (absent,
not null) is NOT discarded by onDeviceOrientationChangeEvent: it replaces
the stored sample and changes what update() returns. -/
theorem claim_C3_counterexample :
    eC3.alpha = .undef ∧
    (onDeviceOrientationChangeEvent sC3 eC3).deviceOrientation = some eC3 ∧
    (update (onDeviceOrientationChangeEvent sC3 eC3)).2 ≠ (update sC3).2 := by
  refine ⟨rfl, rfl, ?_⟩
  have h1 : (update (onDeviceOrientationChangeEvent sC3 eC3)).2 =
      some (.angles (0, d2r * 10, d2r * 20, 0)) := rfl
  have h2 : (update sC3).2 = some (.angles (d2r * 1, d2r * 2, d2r * 3, 0)) := rfl
  rw [h1, h2]
  intro h
  simp only [Option.some.injEq, UpdateResult.angles.injEq, Prod.mk.injEq] at h
  have h0 : (0 : ℝ) = d2r * 1 := h.1
  have hπ : Real.pi = 0 := by
    unfold d2r at h0
    linarith
  exact Real.pi_ne_zero hπ

/-- C3 (amended): an incoming sensor event in which some field among
alpha/beta/gamma is null is discarded by onDeviceOrientationChangeEvent,
leaving the state (hence the stored sample and the result of a subsequent
update()) unchanged; events with merely undefined fields are stored. -/
theorem claim_C3_null_discard (s : MState) (e : DeviceEvent)
    (h : hasNullAngleField e = true) :
    onDeviceOrientationChangeEvent s e = s ∧
    update (onDeviceOrientationChangeEvent s e) = update s := by
  have h1 : onDeviceOrientationChangeEvent s e = s := by
    simp [onDeviceOrientationChangeEvent, h]
  exact ⟨h1, by rw [h1]⟩

/-- Witness for the amended C3 at a concrete null-carrying event. -/
theorem claim_C3_witness :
    hasNullAngleField ⟨.null, .num 1, .num 2⟩ = true ∧
    (onDeviceOrientationChangeEvent mstate0 ⟨.null, .num 1, .num 2⟩ = mstate0 ∧
     update (onDeviceOrientationChangeEvent mstate0 ⟨.null, .num 1, .num 2⟩) =
       update mstate0) :=
  ⟨rfl, claim_C3_null_discard mstate0 ⟨.null, .num 1, .num 2⟩ rfl⟩

/-- Trace for the C2 counterexample: subscribe, then deliver a sample with
an undefined alpha field. -/
def evsC2 : List Ev := [.subscribe, .sensor ⟨.undef, .num 10, .num 20⟩]

/-- C2 (counterexample): after subscribing and receiving a sample whose
alpha field is undefined, update() returns non-null even though no valid
sample (all three fields present and non-null) has ever been received. -/
theorem claim_C2_counterexample :
    (update (runEvents mstate0 evsC2)).2 ≠ none ∧
    (runEvents mstate0 evsC2).isEnabled = true ∧
    acceptsValidSample mstate0 evsC2 = false := by
  refine ⟨?_, rfl, rfl⟩
  have h1 : (update (runEvents mstate0 evsC2)).2 =
      some (.angles (0, d2r * 10, d2r * 20, 0)) := rfl
  rw [h1]
  exact fun h => Option.noConfusion h

/-- C2 (amended): for every reachable state, update() returns null if and
only if the subscription is disabled or no sample passing the null-field
guard has ever been stored (samples with merely undefined fields count as
stored); and update() directly after teardown() always returns null. -/
theorem claim_C2_update_null_iff :
    (∀ evs : List Ev,
      (update (runEvents mstate0 evs)).2 = none ↔
        ((runEvents mstate0 evs).isEnabled = false ∨
          acceptsSample mstate0 evs = false)) ∧
    (∀ s : MState, (update (destroy s)).2 = none) := by
  constructor
  · intro evs
    rw [update_snd_none_iff, runEvents_dev_none_iff]
    simp [mstate0]
  · intro s
    rw [update_snd_none_iff]
    left
    rfl

/-- C9: the screen-orientation offset is set by the screen-rotation
handler to the platform report (0 when absent) times pi/180, and is left
unchanged by the sensor-event handler, by update(), and by destroy(). -/
theorem claim_C9_screen_offset :
    (∀ (s : MState) (r : JSVal),
      (onScreenOrientationChangeEvent s r).screenOrientation =
        jsOrZero r * (Real.pi / 180)) ∧
    (∀ (s : MState) (e : DeviceEvent),
      (onDeviceOrientationChangeEvent s e).screenOrientation =
        s.screenOrientation) ∧
    (∀ s : MState, ((update s).1).screenOrientation = s.screenOrientation) ∧
    (∀ s : MState, (destroy s).screenOrientation = s.screenOrientation) := by
  refine ⟨fun s r => rfl, fun s e => ?_, fun s => ?_, fun s => rfl⟩
  · unfold onDeviceOrientationChangeEvent
    cases hasNullAngleField e <;> simp
  · cases hE : s.isEnabled with
    | false => simp [update, hE]
    | true =>
        cases hD : s.deviceOrientation with
        | none => simp [update, hE, hD]
        | some d =>
            cases h3 : s.isThree with
            | false => simp [update, hE, hD, h3]
            | true => simp [update, hE, hD, h3]

/-- Concrete state for the C8 witness. -/
def sC8 : MState :=
  { mstate0 with isEnabled := true, listenersAttached := true,
                 deviceOrientation := some ⟨.num 180, .undef, .num 0⟩ }

/-- C8: without a math capability, update() on an enabled state with a
stored sample returns the 4-tuple of the three sample fields converted
degrees-to-radians (an undefined field contributing 0) together with the
current screen offset, and writes that tuple into the reused _angles
buffer. -/
theorem claim_C8_raw_tuple (s : MState) (device : DeviceEvent)
    (h3 : s.isThree = false) (hE : s.isEnabled = true)
    (hD : s.deviceOrientation = some device) :
    (update s).2 = some (.angles
      (sampleFieldRadians device.alpha, sampleFieldRadians device.beta,
       sampleFieldRadians device.gamma, s.screenOrientation)) ∧
    ((update s).1).angles =
      (sampleFieldRadians device.alpha, sampleFieldRadians device.beta,
       sampleFieldRadians device.gamma, s.screenOrientation) := by
  have ha := get_deviceEulerAngle_eq device .alpha
  have hb := get_deviceEulerAngle_eq device .beta
  have hg := get_deviceEulerAngle_eq device .gamma
  simp only [DeviceEvent.get] at ha hb hg
  constructor <;> simp [update, hE, hD, h3, ha, hb, hg]

/-- Witness for C8 at a concrete state whose sample has alpha 180 degrees,
beta undefined, gamma 0 degrees. -/
theorem claim_C8_witness :
    sC8.isThree = false ∧ sC8.isEnabled = true ∧
    sC8.deviceOrientation = some ⟨.num 180, .undef, .num 0⟩ ∧
    ((update sC8).2 = some (.angles
      (sampleFieldRadians (JSVal.num 180), sampleFieldRadians JSVal.undef,
       sampleFieldRadians (JSVal.num 0), sC8.screenOrientation)) ∧
     ((update sC8).1).angles =
      (sampleFieldRadians (JSVal.num 180), sampleFieldRadians JSVal.undef,
       sampleFieldRadians (JSVal.num 0), sC8.screenOrientation)) :=
  ⟨rfl, rfl, rfl, claim_C8_raw_tuple sC8 ⟨.num 180, .undef, .num 0⟩ rfl rfl rfl⟩

/-! ## Claims about the permission flow -/

/-- Environment for the C1 counterexample: the capability is present and
the user denies the request. -/
def envC1 : PermEnv := ⟨some fun _ => .resolved "denied"⟩

/-- Configuration for the permission-flow counterexamples and witnesses. -/
def specNoTrigger : HelperSpec := ⟨false, none, false⟩

/-- C1 (counterexample): capability present, user denies: the promise is
accepted but the subscription is NOT enabled; the enabled flag stays false
and the listeners are not attached. -/
theorem claim_C1_counterexample :
    (request_API envC1 specNoTrigger mstate0 0).accepted = true ∧
    (request_API envC1 specNoTrigger mstate0 0).st.isEnabled = false ∧
    (request_API envC1 specNoTrigger mstate0 0).st.listenersAttached = false := by
  have h : request_API envC1 specNoTrigger mstate0 0 = ⟨mstate0, true, 1, none⟩ := by
    unfold request_API envC1
    simp
  rw [h]
  exact ⟨rfl, rfl, rfl⟩

/-- C1 (amended): when the capability is present and the request resolves
with a non-granted outcome, the ready signal still fulfills, but the
sensor subscription is NOT enabled: the module state is left entirely
unchanged (no enabled flag, no listeners). -/
theorem claim_C1_deny_still_accepts (env : PermEnv) (spec : HelperSpec)
    (s : MState) (results : ℕ → PermResult) (response : String)
    (hcap : env.requestPermission = some results)
    (hres : results 0 = .resolved response)
    (hng : response ≠ "granted") :
    (request_API env spec s 0).accepted = true ∧
    (request_API env spec s 0).st = s := by
  unfold request_API
  simp only [hcap]
  simp only [hres]
  simp [hng]

/-- Witness for the amended C1: a concrete denied response. -/
theorem claim_C1_witness :
    envC1.requestPermission = some (fun _ => .resolved "denied") ∧
    (fun _ : ℕ => PermResult.resolved "denied") 0 = .resolved "denied" ∧
    "denied" ≠ "granted" ∧
    ((request_API envC1 specNoTrigger mstate0 0).accepted = true ∧
     (request_API envC1 specNoTrigger mstate0 0).st = mstate0) :=
  ⟨rfl, rfl, by decide,
   claim_C1_deny_still_accepts envC1 specNoTrigger mstate0 _ "denied" rfl rfl
     (by decide)⟩

/-- C4: capability present and the first request rejects with a
NOTALLOWEDERROR-classified error.  With no DOMTrigger configured the flow
attaches a retry handler to DOMRetryTrigger (defaulting to the window
surface), re-requests exactly once on the gesture (two requestPermission
invocations in total), and a second rejection makes the promise reject; a
rejection on a non-first attempt, or with a DOMTrigger configured,
rejects immediately and attaches no handler. -/
theorem claim_C4_retry_once (env : PermEnv) (spec : HelperSpec) (s : MState)
    (results : ℕ → PermResult) (e0 e1 : String)
    (hcap : env.requestPermission = some results)
    (h0 : results 0 = .rejected e0)
    (he0 : errorType e0 = "NOTALLOWEDERROR")
    (h1 : results 1 = .rejected e1) :
    (request_API env spec s 1 = ⟨s, false, 1, none⟩) ∧
    (spec.DOMTrigger = false →
      request_API env spec s 0 =
        ⟨s, false, 2, some (spec.DOMRetryTrigger.getD .window)⟩) ∧
    (spec.DOMTrigger = true →
      request_API env spec s 0 = ⟨s, false, 1, none⟩) := by
  have hA1 : request_API env spec s 1 = ⟨s, false, 1, none⟩ := by
    unfold request_API
    simp only [hcap]
    simp only [h1]
    rw [dif_neg]
    rintro ⟨-, -, h⟩
    exact one_ne_zero h
  refine ⟨hA1, ?_, ?_⟩
  · intro hT
    unfold request_API
    simp only [hcap]
    simp only [h0]
    rw [dif_pos ⟨he0, hT, trivial⟩]
    simp only [Nat.zero_add]
    simp [hA1]
  · intro hT
    unfold request_API
    simp only [hcap]
    simp only [h0]
    rw [dif_neg]
    rintro ⟨-, hF, -⟩
    rw [hT] at hF
    exact Bool.noConfusion hF

/-- Results function for the C4 witness: every attempt rejects with a
NotAllowedError rendering. -/
def resultsC4 : ℕ → PermResult := fun _ => .rejected "NotAllowedError: denied"

/-- Environment for the C4 witness. -/
def envC4 : PermEnv := ⟨some resultsC4⟩

/-- Witness for C4 at a concrete always-not-allowed environment. -/
theorem claim_C4_witness :
    envC4.requestPermission = some resultsC4 ∧
    resultsC4 0 = .rejected "NotAllowedError: denied" ∧
    errorType "NotAllowedError: denied" = "NOTALLOWEDERROR" ∧
    resultsC4 1 = .rejected "NotAllowedError: denied" ∧
    ((request_API envC4 specNoTrigger mstate0 1 = ⟨mstate0, false, 1, none⟩) ∧
     (specNoTrigger.DOMTrigger = false →
       request_API envC4 specNoTrigger mstate0 0 =
         ⟨mstate0, false, 2, some (specNoTrigger.DOMRetryTrigger.getD .window)⟩) ∧
     (specNoTrigger.DOMTrigger = true →
       request_API envC4 specNoTrigger mstate0 0 = ⟨mstate0, false, 1, none⟩)) :=
  ⟨rfl, rfl, by decide, rfl,
   claim_C4_retry_once envC4 specNoTrigger mstate0 resultsC4 _ _ rfl rfl
     (by decide) rfl⟩

/-- C6: capability entirely absent: with rejectIfUnsupported the ready
signal of init rejects; otherwise the subscription is enabled
unconditionally, the signal fulfills, and a subsequent sensor event that
passes the null-field guard is stored as the sample. -/
theorem claim_C6_capability_absent (env : PermEnv) (spec : HelperSpec)
    (isThree : Bool) (report : JSVal) (s : MState)
    (hcap : env.requestPermission = none) :
    (spec.isRejectIfMissing = true →
      (init env spec isThree report s).accepted = false) ∧
    (spec.isRejectIfMissing = false →
      (init env spec isThree report s).accepted = true ∧
      (init env spec isThree report s).st.isEnabled = true ∧
      (init env spec isThree report s).st.listenersAttached = true ∧
      ∀ e : DeviceEvent, hasNullAngleField e = false →
        (stepEv (init env spec isThree report s).st
          (.sensor e)).deviceOrientation = some e) := by
  constructor
  · intro hR
    simp [init, request_API, hcap, hR]
  · intro hR
    have hflow : init env spec isThree report s =
        ⟨add_eventListeners (onScreenOrientationChangeEvent
          { s with isThree := isThree,
                   three := if isThree then init_threeInstances else s.three }
          report), true, 0, none⟩ := by
      unfold init request_API
      simp [hcap, hR]
    rw [hflow]
    refine ⟨rfl, rfl, rfl, ?_⟩
    intro e he
    simp [stepEv, add_eventListeners, onDeviceOrientationChangeEvent, he]

/-- Environment for the C6 witness: no capability. -/
def envC6 : PermEnv := ⟨none⟩

/-- Witness for C6 with the capability absent and rejectIfUnsupported
false. -/
theorem claim_C6_witness :
    envC6.requestPermission = none ∧
    ((specNoTrigger.isRejectIfMissing = true →
      (init envC6 specNoTrigger false .undef mstate0).accepted = false) ∧
     (specNoTrigger.isRejectIfMissing = false →
      (init envC6 specNoTrigger false .undef mstate0).accepted = true ∧
      (init envC6 specNoTrigger false .undef mstate0).st.isEnabled = true ∧
      (init envC6 specNoTrigger false .undef mstate0).st.listenersAttached = true ∧
      ∀ e : DeviceEvent, hasNullAngleField e = false →
        (stepEv (init envC6 specNoTrigger false .undef mstate0).st
          (.sensor e)).deviceOrientation = some e)) :=
  ⟨rfl, claim_C6_capability_absent envC6 specNoTrigger false .undef mstate0 rfl⟩

/-- C7: the compute_rotation functions fail with the invalid-usage error
exactly when no math capability was configured, and otherwise return the
requested axis component of the YXZ Euler decomposition of the argument
quaternion. -/
theorem claim_C7_extract_axis (s : MState) (q : Quaternion) :
    ((∃ msg, compute_rotationX s q = .error msg) ↔ s.isThree = false) ∧
    ((∃ msg, compute_rotationY s q = .error msg) ↔ s.isThree = false) ∧
    ((∃ msg, compute_rotationZ s q = .error msg) ↔ s.isThree = false) ∧
    (s.isThree = true →
      (compute_rotationX s q).map Prod.snd =
        .ok (Euler.setFromQuaternionYXZ q).x ∧
      (compute_rotationY s q).map Prod.snd =
        .ok (Euler.setFromQuaternionYXZ q).y ∧
      (compute_rotationZ s q).map Prod.snd =
        .ok (Euler.setFromQuaternionYXZ q).z) := by
  cases h3 : s.isThree with
  | false =>
      simp [compute_rotationX, compute_rotationY, compute_rotationZ, h3]
  | true =>
      simp [compute_rotationX, compute_rotationY, compute_rotationZ, h3,
        Except.map]

/-- State for the C7 and C10 witnesses: a math capability is configured. -/
def sThree : MState := { mstate0 with isThree := true }

/-- Witness for C7 at a concrete state with the math capability and the
identity quaternion. -/
theorem claim_C7_witness :
    ((∃ msg, compute_rotationX sThree ⟨0, 0, 0, 1⟩ = .error msg) ↔
      sThree.isThree = false) ∧
    ((∃ msg, compute_rotationY sThree ⟨0, 0, 0, 1⟩ = .error msg) ↔
      sThree.isThree = false) ∧
    ((∃ msg, compute_rotationZ sThree ⟨0, 0, 0, 1⟩ = .error msg) ↔
      sThree.isThree = false) ∧
    (sThree.isThree = true →
      (compute_rotationX sThree ⟨0, 0, 0, 1⟩).map Prod.snd =
        .ok (Euler.setFromQuaternionYXZ ⟨0, 0, 0, 1⟩).x ∧
      (compute_rotationY sThree ⟨0, 0, 0, 1⟩).map Prod.snd =
        .ok (Euler.setFromQuaternionYXZ ⟨0, 0, 0, 1⟩).y ∧
      (compute_rotationZ sThree ⟨0, 0, 0, 1⟩).map Prod.snd =
        .ok (Euler.setFromQuaternionYXZ ⟨0, 0, 0, 1⟩).z) :=
  claim_C7_extract_axis sThree ⟨0, 0, 0, 1⟩

/-! ## Claims about the quaternion math -/

theorem sqrt_half_eq : Real.sqrt 0.5 = Real.sqrt 2 / 2 := by
  have hm : Real.sqrt 2 * Real.sqrt 2 = 2 := Real.mul_self_sqrt (by norm_num)
  have hpos : 0 < Real.sqrt 2 := Real.sqrt_pos.mpr (by norm_num)
  rw [show (0.5 : ℝ) = 2⁻¹ by norm_num, Real.sqrt_inv]
  field_simp

/-- The constant q1 installed by init_threeInstances is the axis-angle
quaternion of -pi/2 about the X axis. -/
theorem q1_eq_axisAngle :
    (⟨- Real.sqrt 0.5, 0, 0, Real.sqrt 0.5⟩ : Quaternion) =
      Quaternion.setFromAxisAngle ⟨1, 0, 0⟩ (- (Real.pi / 2)) := by
  unfold Quaternion.setFromAxisAngle
  have harg : - (Real.pi / 2) / 2 = -(Real.pi / 4) := by ring
  rw [harg, Real.sin_neg, Real.cos_neg, Real.sin_pi_div_four,
    Real.cos_pi_div_four, sqrt_half_eq]
  simp

/-- C5: with a math capability, the quaternion update() returns is the
YXZ Euler composition of (pitch = beta, yaw = alpha, roll = -gamma),
right-multiplied by the axis-angle quaternion of -pi/2 about the X axis,
then right-multiplied by the axis-angle quaternion of -screenOffset about
the Z axis. -/
theorem claim_C5_quaternion_composition (s : MState) (device : DeviceEvent)
    (hE : s.isEnabled = true) (hD : s.deviceOrientation = some device)
    (h3 : s.isThree = true)
    (hq1 : s.three.q1 = ⟨- Real.sqrt 0.5, 0, 0, Real.sqrt 0.5⟩)
    (hz : s.three.zee = ⟨0, 0, 1⟩) :
    (update s).2 = some (.quat
      (((Quaternion.setFromEuler
          ⟨get_deviceEulerAngle device .beta, get_deviceEulerAngle device .alpha,
           - get_deviceEulerAngle device .gamma, .YXZ⟩).multiply
         (Quaternion.setFromAxisAngle ⟨1, 0, 0⟩ (- (Real.pi / 2)))).multiply
        (Quaternion.setFromAxisAngle ⟨0, 0, 1⟩ (- s.screenOrientation)))) := by
  have hstep : (update s).2 = some (.quat
      (((Quaternion.setFromEuler
          ⟨get_deviceEulerAngle device .beta, get_deviceEulerAngle device .alpha,
           - get_deviceEulerAngle device .gamma, .YXZ⟩).multiply
         s.three.q1).multiply
        (Quaternion.setFromAxisAngle s.three.zee (- s.screenOrientation)))) := by
    simp [update, hE, hD, h3, set_quaternion]
  rw [hstep, hq1, hz, q1_eq_axisAngle]

/-- Concrete state for the C5 witness: math capability configured,
enabled, with a stored all-zero sample. -/
def sC5 : MState :=
  { mstate0 with isEnabled := true, listenersAttached := true,
                 deviceOrientation := some ⟨.num 0, .num 0, .num 0⟩,
                 isThree := true }

/-- Witness for C5 at the all-zero sample. -/
theorem claim_C5_witness :
    sC5.isEnabled = true ∧ sC5.deviceOrientation = some ⟨.num 0, .num 0, .num 0⟩ ∧
    sC5.isThree = true ∧
    sC5.three.q1 = ⟨- Real.sqrt 0.5, 0, 0, Real.sqrt 0.5⟩ ∧
    sC5.three.zee = ⟨0, 0, 1⟩ ∧
    (update sC5).2 = some (.quat
      (((Quaternion.setFromEuler
          ⟨get_deviceEulerAngle ⟨.num 0, .num 0, .num 0⟩ .beta,
           get_deviceEulerAngle ⟨.num 0, .num 0, .num 0⟩ .alpha,
           - get_deviceEulerAngle ⟨.num 0, .num 0, .num 0⟩ .gamma, .YXZ⟩).multiply
         (Quaternion.setFromAxisAngle ⟨1, 0, 0⟩ (- (Real.pi / 2)))).multiply
        (Quaternion.setFromAxisAngle ⟨0, 0, 1⟩ (- sC5.screenOrientation)))) :=
  ⟨rfl, rfl, rfl, rfl, rfl,
   claim_C5_quaternion_composition sC5 ⟨.num 0, .num 0, .num 0⟩ rfl rfl rfl rfl rfl⟩

/-- Quaternion conjugate (inverse of a unit quaternion); used to state the
round-trip claim net of the two fixed corrections. -/
def Quaternion.conj (q : Quaternion) : Quaternion := ⟨- q.x, - q.y, - q.z, q.w⟩

/-- Squared norm of a quaternion. -/
def Quaternion.normSq (q : Quaternion) : ℝ :=
  q.x ^ 2 + q.y ^ 2 + q.z ^ 2 + q.w ^ 2

theorem Quaternion.multiply_assoc (a b c : Quaternion) :
    (a.multiply b).multiply c = a.multiply (b.multiply c) := by
  simp only [Quaternion.multiply, Quaternion.mk.injEq]
  refine ⟨by ring, by ring, by ring, by ring⟩

theorem Quaternion.multiply_id (a : Quaternion) :
    a.multiply ⟨0, 0, 0, 1⟩ = a := by
  simp only [Quaternion.multiply, mul_one, mul_zero, zero_mul, add_zero,
    sub_zero, zero_add]

theorem Quaternion.multiply_conj_self (q : Quaternion) (h : q.normSq = 1) :
    q.multiply q.conj = ⟨0, 0, 0, 1⟩ := by
  unfold Quaternion.normSq at h
  simp only [Quaternion.multiply, Quaternion.conj, Quaternion.mk.injEq]
  refine ⟨by ring, by ring, by ring, by linear_combination h⟩

theorem normSq_setFromAxisAngle_z (θ : ℝ) :
    (Quaternion.setFromAxisAngle ⟨0, 0, 1⟩ θ).normSq = 1 := by
  simp only [Quaternion.setFromAxisAngle, Quaternion.normSq]
  have h := Real.sin_sq_add_cos_sq (θ / 2)
  linear_combination h

theorem normSq_q1 :
    (⟨- Real.sqrt 0.5, 0, 0, Real.sqrt 0.5⟩ : Quaternion).normSq = 1 := by
  simp only [Quaternion.normSq]
  have h : Real.sqrt 0.5 ^ 2 = 0.5 := Real.sq_sqrt (by norm_num)
  linear_combination 2 * h

/-- The YXZ Euler quaternion componentwise (the YXZ branch of
Quaternion.setFromEuler). -/
theorem setFromEuler_YXZ (x y z : ℝ) :
    Quaternion.setFromEuler ⟨x, y, z, .YXZ⟩ =
      ⟨Real.sin (x / 2) * Real.cos (y / 2) * Real.cos (z / 2) +
         Real.cos (x / 2) * Real.sin (y / 2) * Real.sin (z / 2),
       Real.cos (x / 2) * Real.sin (y / 2) * Real.cos (z / 2) -
         Real.sin (x / 2) * Real.cos (y / 2) * Real.sin (z / 2),
       Real.cos (x / 2) * Real.cos (y / 2) * Real.sin (z / 2) -
         Real.sin (x / 2) * Real.sin (y / 2) * Real.cos (z / 2),
       Real.cos (x / 2) * Real.cos (y / 2) * Real.cos (z / 2) +
         Real.sin (x / 2) * Real.sin (y / 2) * Real.sin (z / 2)⟩ := rfl

theorem quatYXZ_m23 (s1 c1 s2 c2 s3 c3 : ℝ)
    (p2 : s2 ^ 2 + c2 ^ 2 = 1) (p3 : s3 ^ 2 + c3 ^ 2 = 1) :
    2 * ((c1 * s2 * c3 - s1 * c2 * s3) * (c1 * c2 * s3 - s1 * s2 * c3) -
         (c1 * c2 * c3 + s1 * s2 * s3) * (s1 * c2 * c3 + c1 * s2 * s3)) =
      -(2 * s1 * c1) := by
  linear_combination (-2 * s1 * c1 * (s2 ^ 2 + c2 ^ 2)) * p3 +
    (-2 * s1 * c1) * p2

theorem quatYXZ_m13 (s1 c1 s2 c2 s3 c3 : ℝ)
    (p3 : s3 ^ 2 + c3 ^ 2 = 1) :
    2 * ((s1 * c2 * c3 + c1 * s2 * s3) * (c1 * c2 * s3 - s1 * s2 * c3) +
         (c1 * c2 * c3 + s1 * s2 * s3) * (c1 * s2 * c3 - s1 * c2 * s3)) =
      (c1 ^ 2 - s1 ^ 2) * (2 * s2 * c2) := by
  linear_combination ((c1 ^ 2 - s1 ^ 2) * (2 * s2 * c2)) * p3

theorem quatYXZ_m33 (s1 c1 s2 c2 s3 c3 : ℝ)
    (p1 : s1 ^ 2 + c1 ^ 2 = 1) (p2 : s2 ^ 2 + c2 ^ 2 = 1)
    (p3 : s3 ^ 2 + c3 ^ 2 = 1) :
    1 - 2 * ((s1 * c2 * c3 + c1 * s2 * s3) * (s1 * c2 * c3 + c1 * s2 * s3) +
             (c1 * s2 * c3 - s1 * c2 * s3) * (c1 * s2 * c3 - s1 * c2 * s3)) =
      (c1 ^ 2 - s1 ^ 2) * (c2 ^ 2 - s2 ^ 2) := by
  linear_combination (-2 * (s1 ^ 2 * c2 ^ 2 + c1 ^ 2 * s2 ^ 2)) * p3 +
    (-(s1 ^ 2 + c1 ^ 2)) * p2 + (-1 : ℝ) * p1

theorem quatYXZ_m21 (s1 c1 s2 c2 s3 c3 : ℝ)
    (p2 : s2 ^ 2 + c2 ^ 2 = 1) :
    2 * ((s1 * c2 * c3 + c1 * s2 * s3) * (c1 * s2 * c3 - s1 * c2 * s3) +
         (c1 * c2 * c3 + s1 * s2 * s3) * (c1 * c2 * s3 - s1 * s2 * c3)) =
      (c1 ^ 2 - s1 ^ 2) * (2 * s3 * c3) := by
  linear_combination ((c1 ^ 2 - s1 ^ 2) * (2 * s3 * c3)) * p2

theorem quatYXZ_m22 (s1 c1 s2 c2 s3 c3 : ℝ)
    (p1 : s1 ^ 2 + c1 ^ 2 = 1) (p2 : s2 ^ 2 + c2 ^ 2 = 1)
    (p3 : s3 ^ 2 + c3 ^ 2 = 1) :
    1 - 2 * ((s1 * c2 * c3 + c1 * s2 * s3) * (s1 * c2 * c3 + c1 * s2 * s3) +
             (c1 * c2 * s3 - s1 * s2 * c3) * (c1 * c2 * s3 - s1 * s2 * c3)) =
      (c1 ^ 2 - s1 ^ 2) * (c3 ^ 2 - s3 ^ 2) := by
  linear_combination (-2 * (s1 ^ 2 * c3 ^ 2 + c1 ^ 2 * s3 ^ 2)) * p2 +
    (-(s1 ^ 2 + c1 ^ 2)) * p3 + (-1 : ℝ) * p1

theorem atan2_mul_cos_sin {r θ : ℝ} (hr : 0 < r)
    (hθ : θ ∈ Set.Ioc (-Real.pi) Real.pi) :
    atan2 (r * Real.sin θ) (r * Real.cos θ) = θ := by
  unfold atan2
  have h : (⟨r * Real.cos θ, r * Real.sin θ⟩ : ℂ) =
      (r : ℂ) * (Complex.cos θ + Complex.sin θ * Complex.I) := by
    apply Complex.ext <;>
      simp [Complex.cos_ofReal_re, Complex.sin_ofReal_re, Complex.cos_ofReal_im,
        Complex.sin_ofReal_im]
  rw [h]
  exact Complex.arg_mul_cos_add_sin_mul_I hr hθ

theorem clampValue_of_mem (v : ℝ) (h1 : -1 ≤ v) (h2 : v ≤ 1) :
    clampValue v (-1) 1 = v := by
  unfold clampValue
  rw [min_eq_left h2, max_eq_right h1]

/-- Decomposing the YXZ Euler quaternion recovers the three Euler angles
when the pitch is in the open principal band and the yaw and roll are in
the principal interval. -/
theorem eulerRoundTripYXZ (x y z : ℝ)
    (hx1 : -(Real.pi / 2) < x) (hx2 : x < Real.pi / 2)
    (hsx : |Real.sin x| < 0.9999999)
    (hy : y ∈ Set.Ioc (-Real.pi) Real.pi)
    (hz : z ∈ Set.Ioc (-Real.pi) Real.pi) :
    Euler.setFromQuaternionYXZ (Quaternion.setFromEuler ⟨x, y, z, .YXZ⟩) =
      ⟨x, y, z, .YXZ⟩ := by
  have p1 := Real.sin_sq_add_cos_sq (x / 2)
  have p2 := Real.sin_sq_add_cos_sq (y / 2)
  have p3 := Real.sin_sq_add_cos_sq (z / 2)
  have dx : Real.sin x = 2 * Real.sin (x / 2) * Real.cos (x / 2) := by
    conv_lhs => rw [show x = 2 * (x / 2) by ring]
    exact Real.sin_two_mul (x / 2)
  have cx : Real.cos x = Real.cos (x / 2) ^ 2 - Real.sin (x / 2) ^ 2 := by
    conv_lhs => rw [show x = 2 * (x / 2) by ring]
    exact Real.cos_two_mul' (x / 2)
  have dy : Real.sin y = 2 * Real.sin (y / 2) * Real.cos (y / 2) := by
    conv_lhs => rw [show y = 2 * (y / 2) by ring]
    exact Real.sin_two_mul (y / 2)
  have cy : Real.cos y = Real.cos (y / 2) ^ 2 - Real.sin (y / 2) ^ 2 := by
    conv_lhs => rw [show y = 2 * (y / 2) by ring]
    exact Real.cos_two_mul' (y / 2)
  have dz : Real.sin z = 2 * Real.sin (z / 2) * Real.cos (z / 2) := by
    conv_lhs => rw [show z = 2 * (z / 2) by ring]
    exact Real.sin_two_mul (z / 2)
  have cz : Real.cos z = Real.cos (z / 2) ^ 2 - Real.sin (z / 2) ^ 2 := by
    conv_lhs => rw [show z = 2 * (z / 2) by ring]
    exact Real.cos_two_mul' (z / 2)
  set q := Quaternion.setFromEuler ⟨x, y, z, .YXZ⟩ with hq
  have hm23 : 2 * (q.y * q.z - q.w * q.x) = - Real.sin x := by
    rw [hq, setFromEuler_YXZ, dx]
    exact quatYXZ_m23 _ _ _ _ _ _ p2 p3
  have hm13 : 2 * (q.x * q.z + q.w * q.y) = Real.cos x * Real.sin y := by
    rw [hq, setFromEuler_YXZ, cx, dy]
    exact quatYXZ_m13 _ _ _ _ _ _ p3
  have hm33 : 1 - 2 * (q.x * q.x + q.y * q.y) = Real.cos x * Real.cos y := by
    rw [hq, setFromEuler_YXZ, cx, cy]
    exact quatYXZ_m33 _ _ _ _ _ _ p1 p2 p3
  have hm21 : 2 * (q.x * q.y + q.w * q.z) = Real.cos x * Real.sin z := by
    rw [hq, setFromEuler_YXZ, cx, dz]
    exact quatYXZ_m21 _ _ _ _ _ _ p2
  have hm22 : 1 - 2 * (q.x * q.x + q.z * q.z) = Real.cos x * Real.cos z := by
    rw [hq, setFromEuler_YXZ, cx, cz]
    exact quatYXZ_m22 _ _ _ _ _ _ p1 p2 p3
  have hcos : 0 < Real.cos x := Real.cos_pos_of_mem_Ioo ⟨hx1, hx2⟩
  simp only [Euler.setFromQuaternionYXZ]
  rw [hm23, hm13, hm33, hm21, hm22]
  rw [if_pos (by rw [abs_neg]; exact hsx)]
  have hclamp : clampValue (- Real.sin x) (-1) 1 = - Real.sin x :=
    clampValue_of_mem _ (by nlinarith [Real.sin_le_one x])
      (by nlinarith [Real.neg_one_le_sin x])
  rw [hclamp, neg_neg, Real.arcsin_sin hx1.le hx2.le,
    atan2_mul_cos_sin hcos hy, atan2_mul_cos_sin hcos hz]

/-- C10: building the rotation through set_quaternion and then undoing the
two fixed corrections (the -screenOffset Z-axis screen correction, then
the -pi/2 X-axis camera correction, each undone by multiplying with its
conjugate) yields a quaternion whose compute_rotationX/Y/Z decomposition
reproduces the three composition angles pitch = beta, yaw = alpha and
roll = -gamma exactly, for angles in the principal ranges of the
decomposition. -/
theorem claim_C10_round_trip (t : ThreeInstances) (s : MState)
    (alpha beta gamma orient : ℝ)
    (hq1 : t.q1 = ⟨- Real.sqrt 0.5, 0, 0, Real.sqrt 0.5⟩)
    (hzee : t.zee = ⟨0, 0, 1⟩)
    (h3 : s.isThree = true)
    (hb1 : -(Real.pi / 2) < beta) (hb2 : beta < Real.pi / 2)
    (hsb : |Real.sin beta| < 0.9999999)
    (ha : alpha ∈ Set.Ioc (-Real.pi) Real.pi)
    (hg : - gamma ∈ Set.Ioc (-Real.pi) Real.pi) :
    ((compute_rotationX s
        (((set_quaternion t alpha beta gamma orient).quat.multiply
           (Quaternion.setFromAxisAngle ⟨0, 0, 1⟩ (- orient)).conj).multiply
          (Quaternion.conj ⟨- Real.sqrt 0.5, 0, 0, Real.sqrt 0.5⟩))).map
        Prod.snd = .ok beta) ∧
    ((compute_rotationY s
        (((set_quaternion t alpha beta gamma orient).quat.multiply
           (Quaternion.setFromAxisAngle ⟨0, 0, 1⟩ (- orient)).conj).multiply
          (Quaternion.conj ⟨- Real.sqrt 0.5, 0, 0, Real.sqrt 0.5⟩))).map
        Prod.snd = .ok alpha) ∧
    ((compute_rotationZ s
        (((set_quaternion t alpha beta gamma orient).quat.multiply
           (Quaternion.setFromAxisAngle ⟨0, 0, 1⟩ (- orient)).conj).multiply
          (Quaternion.conj ⟨- Real.sqrt 0.5, 0, 0, Real.sqrt 0.5⟩))).map
        Prod.snd = .ok (- gamma)) := by
  have hquat : (set_quaternion t alpha beta gamma orient).quat =
      ((Quaternion.setFromEuler ⟨beta, alpha, - gamma, .YXZ⟩).multiply
        t.q1).multiply
        (Quaternion.setFromAxisAngle t.zee (- orient)) := rfl
  have hnet : ((set_quaternion t alpha beta gamma orient).quat.multiply
       (Quaternion.setFromAxisAngle ⟨0, 0, 1⟩ (- orient)).conj).multiply
      (Quaternion.conj ⟨- Real.sqrt 0.5, 0, 0, Real.sqrt 0.5⟩) =
      Quaternion.setFromEuler ⟨beta, alpha, - gamma, .YXZ⟩ := by
    rw [hquat, hq1, hzee]
    rw [Quaternion.multiply_assoc
      ((Quaternion.setFromEuler ⟨beta, alpha, - gamma, .YXZ⟩).multiply
        ⟨- Real.sqrt 0.5, 0, 0, Real.sqrt 0.5⟩)
      (Quaternion.setFromAxisAngle ⟨0, 0, 1⟩ (- orient))
      (Quaternion.setFromAxisAngle ⟨0, 0, 1⟩ (- orient)).conj]
    rw [Quaternion.multiply_conj_self _ (normSq_setFromAxisAngle_z (- orient))]
    rw [Quaternion.multiply_id]
    rw [Quaternion.multiply_assoc]
    rw [Quaternion.multiply_conj_self _ normSq_q1]
    rw [Quaternion.multiply_id]
  have hdec := eulerRoundTripYXZ beta alpha (- gamma) hb1 hb2 hsb ha hg
  rw [hnet]
  refine ⟨?_, ?_, ?_⟩ <;>
    simp [compute_rotationX, compute_rotationY, compute_rotationZ, h3, hdec,
      Except.map]

/-- Witness for C10 at the all-zero angles. -/
theorem claim_C10_witness :
    init_threeInstances.q1 = ⟨- Real.sqrt 0.5, 0, 0, Real.sqrt 0.5⟩ ∧
    init_threeInstances.zee = ⟨0, 0, 1⟩ ∧
    sThree.isThree = true ∧
    (-(Real.pi / 2) < (0 : ℝ) ∧ (0 : ℝ) < Real.pi / 2) ∧
    |Real.sin 0| < 0.9999999 ∧
    (0 : ℝ) ∈ Set.Ioc (-Real.pi) Real.pi ∧
    - (0 : ℝ) ∈ Set.Ioc (-Real.pi) Real.pi ∧
    (((compute_rotationX sThree
        (((set_quaternion init_threeInstances 0 0 0 0).quat.multiply
           (Quaternion.setFromAxisAngle ⟨0, 0, 1⟩ (- (0 : ℝ))).conj).multiply
          (Quaternion.conj ⟨- Real.sqrt 0.5, 0, 0, Real.sqrt 0.5⟩))).map
        Prod.snd = .ok 0) ∧
     ((compute_rotationY sThree
        (((set_quaternion init_threeInstances 0 0 0 0).quat.multiply
           (Quaternion.setFromAxisAngle ⟨0, 0, 1⟩ (- (0 : ℝ))).conj).multiply
          (Quaternion.conj ⟨- Real.sqrt 0.5, 0, 0, Real.sqrt 0.5⟩))).map
        Prod.snd = .ok 0) ∧
     ((compute_rotationZ sThree
        (((set_quaternion init_threeInstances 0 0 0 0).quat.multiply
           (Quaternion.setFromAxisAngle ⟨0, 0, 1⟩ (- (0 : ℝ))).conj).multiply
          (Quaternion.conj ⟨- Real.sqrt 0.5, 0, 0, Real.sqrt 0.5⟩))).map
        Prod.snd = .ok (- (0 : ℝ)))) :=
  ⟨rfl, rfl, rfl,
   ⟨by linarith [Real.pi_pos], by linarith [Real.pi_pos]⟩,
   by rw [Real.sin_zero, abs_zero]; norm_num,
   Set.mem_Ioc.mpr ⟨by linarith [Real.pi_pos], Real.pi_pos.le⟩,
   Set.mem_Ioc.mpr ⟨by linarith [Real.pi_pos], by linarith [Real.pi_pos]⟩,
   claim_C10_round_trip init_threeInstances sThree 0 0 0 0 rfl rfl rfl
     (by linarith [Real.pi_pos]) (by linarith [Real.pi_pos])
     (by rw [Real.sin_zero, abs_zero]; norm_num)
     (Set.mem_Ioc.mpr ⟨by linarith [Real.pi_pos], Real.pi_pos.le⟩)
     (Set.mem_Ioc.mpr ⟨by linarith [Real.pi_pos], by linarith [Real.pi_pos]⟩)⟩

end

end DeviceOrientationHelper
